import Mathlib

/-!
Verification of the connection-scoped session and streaming-relay protocol of
the agent-container server (`server.ts`): the WebSocket handler that gates
unauthenticated traffic, tracks a per-connection resume handle (session id),
and relays the agent SDK's event stream to the client character by character.

The embedding models one connection.  The two server-side maps keyed by the
WebSocket (`sessionIds`, `tokenVerified`) become the two fields of `Session`.
External collaborators are oracles attached to each inbound message: the
outcome of `verifyToken` (a boolean) and the agent event stream a `query`
call would produce (a list of SDK messages, plus whether the stream raises
after those events).  `onMessage` is a direct translation of the handler's
`onMessage` body; its result records the new session state, the wire
messages sent on the socket, the `query` calls made, and the `verifyToken`
calls made.
-/

namespace AgentRelay

/-- A JavaScript value as far as the handler inspects one: the handler only
ever asks for truthiness, string-ness and length of message fields. -/
inductive JVal where
  | str (s : String)
  | num (n : Int)
  | bool (b : Bool)
  | null
deriving DecidableEq, Repr

/-- JavaScript truthiness of a `JVal` (`!!v`): empty string, zero, `false`
and `null` are falsy. -/
def JVal.truthy : JVal → Bool
  | .str s => !(s == "")
  | .num n => !(n == 0)
  | .bool b => b
  | .null => false

/-- Truthiness of a possibly-absent field (`!!data.f`): an absent field is
`undefined`, which is falsy. -/
def truthyOpt : Option JVal → Bool
  | none => false
  | some v => v.truthy

/-- A parsed client JSON message, restricted to the two fields the handler
reads: `data.token` and `data.prompt`. -/
structure ClientMsg where
  token : Option JVal
  prompt : Option JVal
deriving DecidableEq, Repr

/-- One content block of an SDK assistant message: `block.type === "text"`
carries text, everything else is ignored by the relay. -/
inductive ContentBlock where
  | text (s : String)
  | other
deriving DecidableEq, Repr

/-- One SDK message of a `query` response stream, as far as the handler
inspects it: `system`/`init` messages carry a `session_id` (the empty
string models an absent/empty id, which the code's truthiness test skips),
`assistant` messages carry content blocks, everything else is ignored. -/
inductive AgentEvent where
  | init (session_id : String)
  | assistant (content : List ContentBlock)
  | other
deriving DecidableEq, Repr

/-- The event stream a `query` call produces: the events consumed in order,
and whether the stream raises after yielding them (a mid-stream raise is a
raise after a proper prefix of the intended events). -/
structure AgentStream where
  events : List AgentEvent
  raises : Bool
deriving DecidableEq, Repr

/-- A server-to-client wire message, one constructor per `type` tag the
server sends.  The code only ever sends `tokenVerified` with success true;
the constructor keeps the wire shape's `success` field. -/
inductive WireMsg where
  | ready
  | tokenVerified (success : Bool)
  | text (chunk : String)
  | done
  | error (message : String)
deriving DecidableEq, Repr

/-- Per-connection session state: the entries of the server's
`tokenVerified` and `sessionIds` maps for this connection.  `sessionId`
is the stored resume handle; the code initialises it to `""`, which also
encodes "no handle yet" (the resume option is only set from a truthy id). -/
structure Session where
  tokenVerified : Bool
  sessionId : String
deriving DecidableEq, Repr

/-- The session state `onOpen` installs for a fresh connection. -/
def openSession : Session := ⟨false, ""⟩

/-- Configuration the prompt path consults: whether
`ANTHROPIC_API_KEY` or `CLAUDE_CODE_OAUTH_TOKEN` is configured. -/
structure Config where
  hasAgentKey : Bool
deriving DecidableEq, Repr

/-- One call to the agent gateway (`query`): the prompt and the `resume`
option passed in `queryOptions`. -/
structure GatewayCall where
  prompt : String
  resume : Option String
deriving DecidableEq, Repr

/-- An inbound WebSocket frame: either a payload `JSON.parse` rejects, or a
parsed message together with the oracle data of the external calls its
processing would make (the `verifyToken` outcome, and the stream a `query`
call would yield). -/
inductive Inbound where
  | malformed
  | msg (data : ClientMsg) (verifyOk : Bool) (stream : AgentStream)
deriving DecidableEq, Repr

/-- The observable result of processing one inbound frame: the new session
state, the wire messages sent (in order), the `query` calls made and the
`verifyToken` calls made. -/
structure StepOut where
  state : Session
  sent : List WireMsg
  gatewayCalls : List GatewayCall
  verifierCalls : List JVal
deriving DecidableEq, Repr

/-- Text of one content block (`block.type === "text" ? block.text : ""`). -/
def blockText : ContentBlock → String
  | .text s => s
  | .other => ""

/-- The character-by-character send loop: one `text` wire message per
character of `s`, in order. -/
def charMsgs (s : String) : List WireMsg :=
  s.data.map fun c => WireMsg.text (String.singleton c)

/-- One iteration of the `for await` relay loop: an `init` event with a
truthy `session_id` overwrites the stored handle (`sessionIds.set`), an
`assistant` event streams each text block character by character, other
events are ignored. -/
def relayEvent (h : String) : AgentEvent → String × List WireMsg
  | .init sid => (if sid = "" then h else sid, [])
  | .assistant content => (h, (content.map fun b => charMsgs (blockText b)).flatten)
  | .other => (h, [])

/-- The whole relay loop over a list of events, threading the stored
handle and concatenating the sent messages in order. -/
def relayEvents (h : String) : List AgentEvent → String × List WireMsg
  | [] => (h, [])
  | e :: rest =>
    let p := relayEvent h e
    let q := relayEvents p.1 rest
    (q.1, p.2 ++ q.2)

/-- The continuation identifier an event list surfaces: the `session_id` of
the last `init` event with a truthy id, if any. -/
def capturedId : List AgentEvent → Option String
  | [] => none
  | e :: rest =>
    match capturedId rest with
    | some c => some c
    | none =>
      match e with
      | .init sid => if sid = "" then none else some sid
      | _ => none

/-- The body of the `try` block after validation: the `query` call (with
`resume` already computed by `promptAction`), the relay loop, then either
the single `done` on normal exhaustion or the catch block's error message
if the stream raises. -/
def runQuery (s : Session) (call : GatewayCall) (st : AgentStream) : StepOut :=
  let r := relayEvents s.sessionId st.events
  { state := { s with sessionId := r.1 },
    sent := r.2 ++ (if st.raises then [.error "Failed to process query"]
                    else [.done]),
    gatewayCalls := [call],
    verifierCalls := [] }

/-- What the prompt path decides to do before any suspension: reject with a
wire message, silently return, or start a `query` invocation.  Mirrors the
handler after the token branch: the `isVerified` gate, the `!data?.prompt`
and `typeof` checks, the length ceiling, the upstream-credential check, and
the computation of the `resume` option from the stored handle. -/
inductive Action where
  | skip
  | send (m : WireMsg)
  | start (call : GatewayCall) (st : AgentStream)
deriving DecidableEq, Repr

/-- The prompt path of `onMessage` up to the point the `query` call is
issued (its synchronous prefix). -/
def promptAction (cfg : Config) (s : Session) (data : ClientMsg)
    (st : AgentStream) : Action :=
  if s.tokenVerified = false then
    .send (.error "Not authenticated.")
  else if truthyOpt data.prompt = false then
    .skip
  else
    match data.prompt with
    | some (.str p) =>
      if p.length > 100000 then
        .send (.error "Prompt too long. Maximum 100000 characters")
      else if cfg.hasAgentKey = false then
        .send (.error "ANTHROPIC_API_KEY or CLAUDE_CODE_OAUTH_TOKEN must be configured")
      else
        .start ⟨p, if s.sessionId = "" then none else some s.sessionId⟩ st
    | _ => .skip

/-- The token branch of `onMessage`: on a successful `verifyToken` the flag
is set and `tokenVerified` with success true is sent; on failure an `error`
message is sent and nothing changes. -/
def credStep (s : Session) (tok : JVal) (verifyOk : Bool) : StepOut :=
  if verifyOk then
    ⟨{ s with tokenVerified := true }, [.tokenVerified true], [], [tok]⟩
  else
    ⟨s, [.error "Token verification failed"], [], [tok]⟩

/-- The `onMessage` handler for one inbound frame, run to completion:
unparseable payloads return silently; a truthy `token` field takes the
credential branch and returns; otherwise the prompt path runs, and a
started invocation relays its whole stream. -/
def onMessage (cfg : Config) (s : Session) (ev : Inbound) : StepOut :=
  match ev with
  | .malformed => ⟨s, [], [], []⟩
  | .msg data verifyOk st =>
    if truthyOpt data.token then
      credStep s (data.token.getD .null) verifyOk
    else
      match promptAction cfg s data st with
      | .skip => ⟨s, [], [], []⟩
      | .send m => ⟨s, [m], [], []⟩
      | .start call stream => runQuery s call stream

/-- Process a list of inbound frames in order, accumulating sent messages
and external calls. -/
def runMsgs (cfg : Config) (s : Session) :
    List Inbound → Session × List WireMsg × List GatewayCall
  | [] => (s, [], [])
  | ev :: rest =>
    let o := onMessage cfg s ev
    let r := runMsgs cfg o.state rest
    (r.1, o.sent ++ r.2.1, o.gatewayCalls ++ r.2.2)

/-- A whole connection: `onOpen` installs the fresh session and sends
`ready`, then the inbound frames are processed. -/
def runConn (cfg : Config) (evs : List Inbound) :
    Session × List WireMsg × List GatewayCall :=
  let r := runMsgs cfg openSession evs
  (r.1, WireMsg.ready :: r.2.1, r.2.2)

/-- Characters a single event contributes to the relay output: the
concatenated text of an assistant message's text blocks. -/
def eventChars : AgentEvent → List Char
  | .assistant content => (content.map fun b => (blockText b).data).flatten
  | _ => []

/-- All characters an event list contributes, in upstream order. -/
def streamChars (evs : List AgentEvent) : List Char :=
  (evs.map eventChars).flatten

/-- Scans a wire trace left to right: `true` iff no `text` and no `done`
message occurs before the first `tokenVerified` message with success true. -/
def authBeforeOutput : List WireMsg → Bool
  | [] => true
  | m :: rest =>
    match m with
    | .tokenVerified true => true
    | .text _ => false
    | .done => false
    | _ => authBeforeOutput rest

/-- One turn submitted serially on an authenticated connection: the prompt
and the stream its `query` call yields. -/
structure Turn where
  prompt : String
  stream : AgentStream
deriving DecidableEq, Repr

/-- The inbound frame carrying a turn's prompt (no token field; the
`verifyToken` oracle value is irrelevant on this path). -/
def promptMsg (t : Turn) : Inbound :=
  .msg ⟨none, some (.str t.prompt)⟩ true t.stream

/-- Serial submission: each prompt is processed to completion (its terminal
`done` or `error` observed) before the next is delivered. -/
def runTurns (cfg : Config) (s : Session) (ts : List Turn) :
    Session × List WireMsg × List GatewayCall :=
  runMsgs cfg s (ts.map promptMsg)

/-- A prompt the validation accepts: non-empty and within the 100000-unit
length ceiling. -/
def validTurn (t : Turn) : Prop :=
  t.prompt ≠ "" ∧ t.prompt.length ≤ 100000

instance decidableValidTurn (t : Turn) : Decidable (validTurn t) :=
  inferInstanceAs (Decidable (t.prompt ≠ "" ∧ t.prompt.length ≤ 100000))

/-- The gateway calls a serial run makes, with the handle threaded turn by
turn (proof-side characterization of `runTurns`). -/
def turnsCalls (h : String) : List Turn → List GatewayCall
  | [] => []
  | t :: rest =>
    ⟨t.prompt, if h = "" then none else some h⟩ ::
      turnsCalls (relayEvents h t.stream.events).1 rest

/-!
Concurrent model for the in-flight-invocation claim.  The handler's prompt
path runs synchronously only up to the first `await` inside the
`for await` relay loop; everything up to and including the `query` call has
then already happened.  When a second prompt frame arrives while a previous
invocation is still streaming, Node runs the new `onMessage` call while the
old one is suspended, so the new prompt is processed against the shared
per-connection state with the old invocation's remaining events still
pending.  `CState` records that picture, and `cDeliverPrompt` is the
synchronous prefix of the prompt path run against it.
-/

/-- A started invocation whose stream is not yet exhausted: the events not
yet consumed, and whether the stream raises after them. -/
structure Invocation where
  remaining : List AgentEvent
  raises : Bool
deriving DecidableEq, Repr

/-- A connection's state with zero or more invocations still streaming. -/
structure CState where
  sess : Session
  inflight : List Invocation
deriving DecidableEq, Repr

/-- Delivery of a prompt frame, run up to the prompt path's first
suspension: validation and the `query` call happen synchronously; a started
invocation's stream is left pending, and the already-pending invocations
are untouched (the handler has no in-flight check and no shared flag). -/
def cDeliverPrompt (cfg : Config) (st : CState) (data : ClientMsg)
    (stream : AgentStream) : CState × List WireMsg × List GatewayCall :=
  match promptAction cfg st.sess data stream with
  | .skip => (st, [], [])
  | .send m => (st, [m], [])
  | .start call s =>
    ({ st with inflight := st.inflight ++ [⟨s.events, s.raises⟩] }, [], [call])

/-! Helper lemmas about the relay loop. -/

/-- The handle the relay loop ends with is the last truthy `init` id of the
stream when there is one, and the starting handle otherwise. -/
theorem relayEvents_fst (evs : List AgentEvent) :
    ∀ h, (relayEvents h evs).1 = (capturedId evs).getD h := by
  induction evs with
  | nil => intro h; rfl
  | cons e rest ih =>
    intro h
    simp only [relayEvents, capturedId]
    rw [ih]
    cases hc : capturedId rest with
    | some c => simp
    | none =>
      cases e with
      | init sid =>
        by_cases hs : sid = "" <;> simp [relayEvent, hs]
      | assistant content => simp [relayEvent]
      | other => simp [relayEvent]

/-- A captured continuation id is never the empty string. -/
theorem capturedId_ne (evs : List AgentEvent) (cid : String)
    (h : capturedId evs = some cid) : cid ≠ "" := by
  induction evs with
  | nil => cases h
  | cons e rest ih =>
    simp only [capturedId] at h
    cases hc : capturedId rest with
    | some c => rw [hc] at h; cases h; exact ih hc
    | none =>
      rw [hc] at h
      cases e with
      | init sid =>
        by_cases hs : sid = ""
        · simp [hs] at h
        · simp [hs] at h; cases h; exact hs
      | assistant content => cases h
      | other => cases h

/-- The wire messages the relay loop sends are exactly one `text` message
per upstream character, in upstream order. -/
theorem relayEvents_snd (evs : List AgentEvent) :
    ∀ h, (relayEvents h evs).2
        = (streamChars evs).map fun c => WireMsg.text (String.singleton c) := by
  induction evs with
  | nil => intro h; rfl
  | cons e rest ih =>
    intro h
    simp only [relayEvents, streamChars, List.map_cons, List.flatten_cons,
      List.map_append]
    rw [ih]
    have : (relayEvent h e).2 = (eventChars e).map fun c =>
        WireMsg.text (String.singleton c) := by
      cases e with
      | init sid => rfl
      | assistant content =>
        simp [relayEvent, eventChars, charMsgs, List.map_flatten,
          List.map_map, Function.comp_def]
      | other => rfl
    rw [this]
    simp [streamChars]

/-- `done` is not among the per-character `text` messages. -/
theorem done_not_mem_charMap (cs : List Char) :
    WireMsg.done ∉ cs.map fun c => WireMsg.text (String.singleton c) := by
  intro hmem
  rcases List.mem_map.mp hmem with ⟨c, _, hc⟩
  cases hc

/-! Claims. -/

/-- Claim C10: an inbound payload that `JSON.parse` rejects is a no-op —
no wire message is sent, the session state is unchanged, and no gateway or
verifier call is made. -/
theorem claim_C10 (cfg : Config) (s : Session) :
    onMessage cfg s .malformed = ⟨s, [], [], []⟩ := rfl

/-- Counterexample to claim C7 as stated: on a failed token verification
the server does not send a `tokenVerified` message with success false; it
sends an `error` message with text "Token verification failed". -/
theorem claim_C7_counterexample :
    (onMessage ⟨true⟩ openSession
        (.msg ⟨some (.str "tok"), none⟩ false ⟨[], false⟩)).sent
      = [.error "Token verification failed"] ∧
    WireMsg.tokenVerified false ∉
      (onMessage ⟨true⟩ openSession
        (.msg ⟨some (.str "tok"), none⟩ false ⟨[], false⟩)).sent := by
  decide

/-- Claim C7 (amended): when token verification fails for a credential
message, the session state is unchanged (so a previously unauthenticated
connection remains unauthenticated), the notification emitted is an
`error` message — not a `tokenVerified` message with success false — and a
subsequent credential message whose verification succeeds authenticates
the connection. -/
theorem claim_C7 (cfg : Config) (s : Session) (data : ClientMsg)
    (st : AgentStream) (htok : truthyOpt data.token = true) :
    onMessage cfg s (.msg data false st)
      = ⟨s, [.error "Token verification failed"], [], [data.token.getD .null]⟩ ∧
    (∀ data2 st2, truthyOpt data2.token = true →
      (onMessage cfg s (.msg data2 true st2)).state.tokenVerified = true) := by
  refine ⟨by simp [onMessage, htok, credStep], ?_⟩
  intro data2 st2 h2
  simp [onMessage, h2, credStep]

/-- Witness for claim C7 at a concrete failed-then-retried credential. -/
theorem claim_C7_witness :
    onMessage ⟨true⟩ openSession (.msg ⟨some (.str "t"), none⟩ false ⟨[], false⟩)
      = ⟨openSession, [.error "Token verification failed"], [], [.str "t"]⟩ ∧
    (onMessage ⟨true⟩ openSession
        (.msg ⟨some (.str "t"), none⟩ true ⟨[], false⟩)).state.tokenVerified = true :=
  ⟨(claim_C7 ⟨true⟩ openSession ⟨some (.str "t"), none⟩ ⟨[], false⟩ (by decide)).1,
   (claim_C7 ⟨true⟩ openSession ⟨some (.str "t"), none⟩ ⟨[], false⟩ (by decide)).2
     ⟨some (.str "t"), none⟩ ⟨[], false⟩ (by decide)⟩

/-- Counterexample to claim C8 as stated: a message whose `token` field is
present but falsy (here the empty string) alongside a `prompt` field is not
treated as a credential — it is forwarded to the gateway as a prompt, and
no verifier call is made. -/
theorem claim_C8_counterexample :
    (onMessage ⟨true⟩ ⟨true, ""⟩
        (.msg ⟨some (.str ""), some (.str "hi")⟩ true ⟨[], false⟩)).gatewayCalls
      = [⟨"hi", none⟩] ∧
    (onMessage ⟨true⟩ ⟨true, ""⟩
        (.msg ⟨some (.str ""), some (.str "hi")⟩ true ⟨[], false⟩)).verifierCalls
      = [] := by
  decide

/-- Claim C8 (amended): every client message whose `token` field is truthy
is treated as a credential message — it triggers exactly one token
verification and is never forwarded as a prompt, whatever other fields it
carries; a message whose `token` field is falsy takes the prompt path. -/
theorem claim_C8 (cfg : Config) (s : Session) (data : ClientMsg)
    (verifyOk : Bool) (st : AgentStream) (htok : truthyOpt data.token = true) :
    (onMessage cfg s (.msg data verifyOk st)).verifierCalls
      = [data.token.getD .null] ∧
    (onMessage cfg s (.msg data verifyOk st)).gatewayCalls = [] := by
  cases verifyOk <;> simp [onMessage, htok, credStep]

/-- Witness for claim C8: a credential message that also carries a prompt
field is verified and not forwarded. -/
theorem claim_C8_witness :
    (onMessage ⟨true⟩ ⟨true, ""⟩
        (.msg ⟨some (.str "t"), some (.str "hi")⟩ true ⟨[], false⟩)).verifierCalls
      = [.str "t"] ∧
    (onMessage ⟨true⟩ ⟨true, ""⟩
        (.msg ⟨some (.str "t"), some (.str "hi")⟩ true ⟨[], false⟩)).gatewayCalls
      = [] :=
  claim_C8 ⟨true⟩ ⟨true, ""⟩ ⟨some (.str "t"), some (.str "hi")⟩ true ⟨[], false⟩
    (by decide)

/-- Claim C9: once the authenticated flag is true it stays true under any
further inbound frame, and processing a further credential message —
whatever the verification outcome — never changes the stored resume
handle. -/
theorem claim_C9 (cfg : Config) (s : Session) (ev : Inbound)
    (hs : s.tokenVerified = true) :
    (onMessage cfg s ev).state.tokenVerified = true ∧
    (∀ data verifyOk st, ev = .msg data verifyOk st →
      truthyOpt data.token = true →
      (onMessage cfg s ev).state.sessionId = s.sessionId) := by
  cases ev with
  | malformed =>
    exact ⟨hs, fun data verifyOk st h => (Inbound.noConfusion h)⟩
  | msg data verifyOk st =>
    by_cases htok : truthyOpt data.token = true
    · refine ⟨?_, ?_⟩
      · cases verifyOk <;> simp [onMessage, htok, credStep, hs]
      · intro d v s2 heq h2
        cases verifyOk <;> simp [onMessage, htok, credStep]
    · have htok' : truthyOpt data.token = false := by
        simpa using htok
      refine ⟨?_, ?_⟩
      · simp only [onMessage, htok', Bool.false_eq_true, if_false]
        cases hpa : promptAction cfg s data st with
        | skip => simpa using hs
        | send m => simpa using hs
        | start call stream => simp [runQuery, hs]
      · intro d v s2 heq
        injection heq with h1 h2 h3
        rw [← h1]
        intro hcon
        rw [htok'] at hcon
        cases hcon

/-- Witness for claim C9: resending a credential on an authenticated
connection with a stored handle keeps the flag true and the handle. -/
theorem claim_C9_witness :
    (onMessage ⟨true⟩ ⟨true, "x"⟩
        (.msg ⟨some (.str "t"), none⟩ true ⟨[], false⟩)).state.tokenVerified
      = true ∧
    (onMessage ⟨true⟩ ⟨true, "x"⟩
        (.msg ⟨some (.str "t"), none⟩ true ⟨[], false⟩)).state.sessionId
      = "x" :=
  ⟨(claim_C9 ⟨true⟩ ⟨true, "x"⟩
      (.msg ⟨some (.str "t"), none⟩ true ⟨[], false⟩) rfl).1,
   (claim_C9 ⟨true⟩ ⟨true, "x"⟩
      (.msg ⟨some (.str "t"), none⟩ true ⟨[], false⟩) rfl).2
     ⟨some (.str "t"), none⟩ true ⟨[], false⟩ rfl (by decide)⟩

/-- Counterexample to claim C2 as stated: delivering a valid prompt while
one invocation is still streaming (one pending invocation in flight) is
not rejected — a new gateway call is made and a second invocation is now
in flight. -/
theorem claim_C2_counterexample :
    (cDeliverPrompt ⟨true⟩ ⟨⟨true, ""⟩, [⟨[.assistant [.text "x"]], false⟩]⟩
        ⟨none, some (.str "q")⟩ ⟨[], false⟩).2.2
      = [⟨"q", none⟩] ∧
    (cDeliverPrompt ⟨true⟩ ⟨⟨true, ""⟩, [⟨[.assistant [.text "x"]], false⟩]⟩
        ⟨none, some (.str "q")⟩ ⟨[], false⟩).1.inflight.length = 2 := by
  decide

/-- Claim C2 (amended): the handler has no in-flight guard — a prompt
delivered while a previous invocation is still streaming passes exactly
the same checks as any other prompt, and when they pass it starts a second
concurrent invocation (one more gateway call); the already-pending
invocations and their remaining events are left untouched, so the
in-progress relay is not interrupted. -/
theorem claim_C2 (cfg : Config) (st : CState) (data : ClientMsg)
    (stream : AgentStream) (call : GatewayCall) (s : AgentStream)
    (hpa : promptAction cfg st.sess data stream = .start call s) :
    cDeliverPrompt cfg st data stream
      = ({ st with inflight := st.inflight ++ [⟨s.events, s.raises⟩] },
         [], [call]) := by
  simp [cDeliverPrompt, hpa]

/-- Witness for claim C2: a concrete mid-stream delivery that starts a
second invocation while the first one's remaining events are preserved. -/
theorem claim_C2_witness :
    cDeliverPrompt ⟨true⟩ ⟨⟨true, ""⟩, [⟨[.init "s9"], true⟩]⟩
        ⟨none, some (.str "q")⟩ ⟨[], false⟩
      = (⟨⟨true, ""⟩, [⟨[.init "s9"], true⟩, ⟨[], false⟩]⟩, [], [⟨"q", none⟩]) := by
  have h := claim_C2 ⟨true⟩ ⟨⟨true, ""⟩, [⟨[.init "s9"], true⟩]⟩
    ⟨none, some (.str "q")⟩ ⟨[], false⟩ ⟨"q", none⟩ ⟨[], false⟩ (by decide)
  simpa using h

/-- Counterexample to claim C3 as stated: an invocation whose stream yields
an `init` event with id "s2" and then raises does update the stored resume
handle — from "s1" to "s2", the id of the failed invocation. -/
theorem claim_C3_counterexample :
    (onMessage ⟨true⟩ ⟨true, "s1"⟩
        (.msg ⟨none, some (.str "p")⟩ true ⟨[.init "s2"], true⟩)).state.sessionId
      = "s2" ∧
    (onMessage ⟨true⟩ ⟨true, "s1"⟩
        (.msg ⟨none, some (.str "p")⟩ true ⟨[.init "s2"], true⟩)).sent
      = [.error "Failed to process query"] := by
  decide

/-- Claim C3 (amended): the stored handle is updated eagerly, as soon as an
`init` event with a truthy id is consumed, not at turn completion.  When
the stream raises mid-stream, the stored handle therefore equals the last
truthy `init` id among the events consumed before the raise when there is
one — the id of the failed invocation — and only when the raise precedes
any such event does it keep its prior value; an error notification is
emitted after the already-relayed text, no `done` is emitted, and the
authenticated flag is unchanged so the connection remains usable. -/
theorem claim_C3 (s : Session) (call : GatewayCall) (st : AgentStream)
    (hr : st.raises = true) :
    (runQuery s call st).state.sessionId
      = (capturedId st.events).getD s.sessionId ∧
    (runQuery s call st).state.tokenVerified = s.tokenVerified ∧
    (runQuery s call st).sent
      = ((streamChars st.events).map fun c => WireMsg.text (String.singleton c))
          ++ [.error "Failed to process query"] ∧
    WireMsg.done ∉ (runQuery s call st).sent := by
  refine ⟨?_, rfl, ?_, ?_⟩
  · simp [runQuery, relayEvents_fst]
  · simp [runQuery, hr, relayEvents_snd]
  · simp only [runQuery, hr, if_true]
    intro hmem
    rcases List.mem_append.mp hmem with hmem | hmem
    · rw [relayEvents_snd] at hmem
      exact done_not_mem_charMap _ hmem
    · simp at hmem

/-- Witness for claim C3 at the counterexample's input. -/
theorem claim_C3_witness :
    (runQuery ⟨true, "s1"⟩ ⟨"p", some "s1"⟩ ⟨[.init "s2"], true⟩).state.sessionId
      = (capturedId [.init "s2"]).getD "s1" ∧
    (runQuery ⟨true, "s1"⟩ ⟨"p", some "s1"⟩ ⟨[.init "s2"], true⟩).state.tokenVerified
      = true ∧
    WireMsg.done ∉ (runQuery ⟨true, "s1"⟩ ⟨"p", some "s1"⟩ ⟨[.init "s2"], true⟩).sent :=
  ⟨(claim_C3 ⟨true, "s1"⟩ ⟨"p", some "s1"⟩ ⟨[.init "s2"], true⟩ rfl).1,
   (claim_C3 ⟨true, "s1"⟩ ⟨"p", some "s1"⟩ ⟨[.init "s2"], true⟩ rfl).2.1,
   (claim_C3 ⟨true, "s1"⟩ ⟨"p", some "s1"⟩ ⟨[.init "s2"], true⟩ rfl).2.2.2⟩

/-- Counterexample to claim C6 as stated: an empty prompt on an
authenticated idle connection is dropped silently — no error notification
is emitted (and no gateway call is made), where the claim requires an
error notification. -/
theorem claim_C6_counterexample :
    (onMessage ⟨true⟩ ⟨true, ""⟩
        (.msg ⟨none, some (.str "")⟩ true ⟨[], false⟩)).sent = [] ∧
    (onMessage ⟨true⟩ ⟨true, ""⟩
        (.msg ⟨none, some (.str "")⟩ true ⟨[], false⟩)).gatewayCalls = [] := by
  decide

/-- Claim C6 (amended): on an authenticated connection, an invalid prompt
is rejected before any upstream call with no state change and zero gateway
calls, but only the over-length case is reported: an empty or non-text
prompt is dropped silently (no wire message at all), while a prompt longer
than 100000 units draws the "Prompt too long" error message. -/
theorem claim_C6 (cfg : Config) (s : Session) (data : ClientMsg)
    (verifyOk : Bool) (st : AgentStream)
    (hs : s.tokenVerified = true) (htok : truthyOpt data.token = false) :
    ((truthyOpt data.prompt = false ∨ ∀ p, data.prompt ≠ some (.str p)) →
      onMessage cfg s (.msg data verifyOk st) = ⟨s, [], [], []⟩) ∧
    (∀ p, data.prompt = some (.str p) → p.length > 100000 →
      onMessage cfg s (.msg data verifyOk st)
        = ⟨s, [.error "Prompt too long. Maximum 100000 characters"], [], []⟩) := by
  constructor
  · intro hbad
    have hpa : promptAction cfg s data st = .skip := by
      rcases hbad with hfal | hnstr
      · simp [promptAction, hs, hfal]
      · simp only [promptAction, hs]
        by_cases hf : truthyOpt data.prompt = false
        · simp [hf]
        · have : truthyOpt data.prompt = true := by
            simpa using hf
          simp only [this]
          cases hp : data.prompt with
          | none => simp
          | some v =>
            cases v with
            | str p => exact absurd hp (hnstr p)
            | num n => simp
            | bool b => simp
            | null => simp
    simp [onMessage, htok, hpa]
  · intro p hp hlong
    have hne : p ≠ "" := by
      intro hcon
      rw [hcon] at hlong
      simp at hlong
    have htr : truthyOpt (some (JVal.str p)) = true := by
      simp [truthyOpt, JVal.truthy, hne]
    have hpa : promptAction cfg s data st
        = .send (.error "Prompt too long. Maximum 100000 characters") := by
      simp [promptAction, hs, hp, htr, hlong]
    simp [onMessage, htok, hpa]

/-- Witness for claim C6: a non-string prompt is silent; an over-length
prompt draws the error message. -/
theorem claim_C6_witness :
    onMessage ⟨true⟩ ⟨true, ""⟩ (.msg ⟨none, some (.num 5)⟩ true ⟨[], false⟩)
      = ⟨⟨true, ""⟩, [], [], []⟩ ∧
    onMessage ⟨true⟩ ⟨true, ""⟩
        (.msg ⟨none, some (.str (String.mk (List.replicate 100001 'a')))⟩ true
          ⟨[], false⟩)
      = ⟨⟨true, ""⟩, [.error "Prompt too long. Maximum 100000 characters"], [], []⟩ :=
  ⟨(claim_C6 ⟨true⟩ ⟨true, ""⟩ ⟨none, some (.num 5)⟩ true ⟨[], false⟩ rfl
      (by decide)).1 (Or.inr (by intro p h; cases h)),
   (claim_C6 ⟨true⟩ ⟨true, ""⟩
      ⟨none, some (.str (String.mk (List.replicate 100001 'a')))⟩ true ⟨[], false⟩
      rfl (by decide)).2
     (String.mk (List.replicate 100001 'a')) rfl
     (by
       show (List.replicate 100001 'a').length > 100000
       rw [List.length_replicate]
       norm_num)⟩

/-- Claim C5: for an invocation whose stream completes without raising,
the relay emits one `text` message per upstream character in exactly the
upstream order, followed by exactly one `done` after all of them; `done`
is never emitted by a raising invocation (so `done` and `error` are
mutually exclusive terminal outcomes); in particular an upstream sequence
yielding "h" then "i" produces text "h", text "i", done, in that order. -/
theorem claim_C5 :
    (∀ s call evs, (runQuery s call ⟨evs, false⟩).sent
      = ((streamChars evs).map fun c => WireMsg.text (String.singleton c))
          ++ [.done]) ∧
    (∀ s call evs, (runQuery s call ⟨evs, false⟩).sent.count .done = 1) ∧
    (∀ s call evs, WireMsg.done ∉ (runQuery s call ⟨evs, true⟩).sent) ∧
    (runQuery ⟨true, ""⟩ ⟨"p", none⟩
        ⟨[.assistant [.text "h"], .assistant [.text "i"]], false⟩).sent
      = [.text "h", .text "i", .done] := by
  have hshape : ∀ (s : Session) (call : GatewayCall) (evs : List AgentEvent),
      (runQuery s call ⟨evs, false⟩).sent
        = ((streamChars evs).map fun c => WireMsg.text (String.singleton c))
            ++ [.done] := by
    intro s call evs
    simp [runQuery, relayEvents_snd]
  refine ⟨hshape, ?_, ?_, by decide⟩
  · intro s call evs
    rw [hshape s call evs, List.count_append]
    have h0 : ((streamChars evs).map fun c =>
        WireMsg.text (String.singleton c)).count .done = 0 :=
      List.count_eq_zero.mpr (done_not_mem_charMap _)
    rw [h0]
    rfl
  · intro s call evs
    simp only [runQuery, if_true]
    intro hmem
    rcases List.mem_append.mp hmem with hmem | hmem
    · rw [relayEvents_snd] at hmem
      exact done_not_mem_charMap _ hmem
    · simp at hmem

/-- No wire message sent from an unauthenticated session is a `text` or
`done` message, and a trace that is clean of them stays clean: scanning
invariant for the authentication gate. -/
theorem runMsgs_authBeforeOutput (cfg : Config) (evs : List Inbound) :
    ∀ s, s.tokenVerified = false →
      authBeforeOutput (runMsgs cfg s evs).2.1 = true := by
  induction evs with
  | nil => intro s hs; rfl
  | cons ev rest ih =>
    intro s hs
    cases ev with
    | malformed =>
      simpa [runMsgs, onMessage] using ih s hs
    | msg data verifyOk st =>
      by_cases htok : truthyOpt data.token = true
      · cases verifyOk with
        | false =>
          simp only [runMsgs, onMessage, htok, if_true, credStep,
            Bool.false_eq_true, if_false, List.cons_append, List.nil_append]
          simpa [authBeforeOutput] using ih s hs
        | true =>
          simp [runMsgs, onMessage, htok, credStep, authBeforeOutput]
      · have htok' : truthyOpt data.token = false := by simpa using htok
        have hpa : promptAction cfg s data st
            = .send (.error "Not authenticated.") := by
          simp [promptAction, hs]
        simp only [runMsgs, onMessage, htok', Bool.false_eq_true, if_false,
          hpa, List.cons_append, List.nil_append]
        simpa [authBeforeOutput] using ih s hs

/-- Claim C1: on every connection trace no `text` and no `done` wire
message is emitted before a `tokenVerified` message with success true has
been emitted, and no prompt is forwarded to the gateway (no `query` call)
while the connection's authenticated flag is false. -/
theorem claim_C1 :
    (∀ cfg evs, authBeforeOutput (runConn cfg evs).2.1 = true) ∧
    (∀ cfg s ev, s.tokenVerified = false →
      (onMessage cfg s ev).gatewayCalls = []) := by
  constructor
  · intro cfg evs
    have h := runMsgs_authBeforeOutput cfg evs openSession rfl
    simpa [runConn, authBeforeOutput] using h
  · intro cfg s ev hs
    cases ev with
    | malformed => rfl
    | msg data verifyOk st =>
      by_cases htok : truthyOpt data.token = true
      · cases verifyOk <;> simp [onMessage, htok, credStep]
      · have htok' : truthyOpt data.token = false := by simpa using htok
        have hpa : promptAction cfg s data st
            = .send (.error "Not authenticated.") := by
          simp [promptAction, hs]
        simp [onMessage, htok', hpa]

/-- Witness for claim C1: a concrete authenticated trace satisfies the
scan, and a prompt delivered to a fresh (unauthenticated) session makes no
gateway call. -/
theorem claim_C1_witness :
    authBeforeOutput (runConn ⟨true⟩
        [.msg ⟨some (.str "t"), none⟩ true ⟨[.assistant [.text "a"]], false⟩,
         .msg ⟨none, some (.str "p")⟩ true ⟨[], false⟩]).2.1 = true ∧
    (onMessage ⟨true⟩ openSession
        (.msg ⟨none, some (.str "p")⟩ true ⟨[], false⟩)).gatewayCalls = [] :=
  ⟨claim_C1.1 ⟨true⟩
     [.msg ⟨some (.str "t"), none⟩ true ⟨[.assistant [.text "a"]], false⟩,
      .msg ⟨none, some (.str "p")⟩ true ⟨[], false⟩],
   claim_C1.2 ⟨true⟩ openSession
     (.msg ⟨none, some (.str "p")⟩ true ⟨[], false⟩) rfl⟩

/-- A serial run of valid turns from an authenticated session makes the
gateway calls `turnsCalls` describes: one call per turn, with the handle
threaded from turn to turn. -/
theorem runTurns_calls (cfg : Config) (hkey : cfg.hasAgentKey = true) :
    ∀ (ts : List Turn) (h : String), (∀ t ∈ ts, validTurn t) →
      (runTurns cfg ⟨true, h⟩ ts).2.2 = turnsCalls h ts := by
  intro ts
  induction ts with
  | nil => intro h _; rfl
  | cons t rest ih =>
    intro h hv
    have hvt : validTurn t := hv t (List.mem_cons_self t rest)
    have hvr : ∀ t2 ∈ rest, validTurn t2 :=
      fun t2 ht2 => hv t2 (List.mem_cons_of_mem t ht2)
    have htr : truthyOpt (some (JVal.str t.prompt)) = true := by
      simp [truthyOpt, JVal.truthy, hvt.1]
    have hlen : ¬ t.prompt.length > 100000 := not_lt.mpr hvt.2
    have hpa : promptAction cfg ⟨true, h⟩ ⟨none, some (.str t.prompt)⟩ t.stream
        = .start ⟨t.prompt, if h = "" then none else some h⟩ t.stream := by
      simp [promptAction, htr, hlen, hkey]
    have hstep : onMessage cfg ⟨true, h⟩ (promptMsg t)
        = runQuery ⟨true, h⟩ ⟨t.prompt, if h = "" then none else some h⟩
            t.stream := by
      simp [onMessage, promptMsg, truthyOpt, hpa]
    show (runMsgs cfg ⟨true, h⟩ (List.map promptMsg (t :: rest))).2.2 = _
    simp only [List.map_cons, runMsgs, hstep]
    have hst : (runQuery ⟨true, h⟩
        ⟨t.prompt, if h = "" then none else some h⟩ t.stream).state
        = ⟨true, (relayEvents h t.stream.events).1⟩ := rfl
    rw [hst]
    have hrest := ih (relayEvents h t.stream.events).1 hvr
    simp only [runTurns] at hrest
    rw [hrest]
    rfl

/-- `turnsCalls` makes one call per turn. -/
theorem turnsCalls_length (ts : List Turn) :
    ∀ h, (turnsCalls h ts).length = ts.length := by
  induction ts with
  | nil => intro h; rfl
  | cons t rest ih => intro h; simp [turnsCalls, ih]

/-- The first call of a run started with an empty handle has no resume
option. -/
theorem turnsCalls_head (ts : List Turn) (c : GatewayCall)
    (h0 : (turnsCalls "" ts)[0]? = some c) : c.resume = none := by
  cases ts with
  | nil => cases h0
  | cons t rest =>
    simp [turnsCalls] at h0
    rw [← h0]

/-- When turn k's stream surfaces a continuation id, the call made for
turn k+1 resumes from exactly that id. -/
theorem turnsCalls_next (ts : List Turn) :
    ∀ (h : String) (k : Nat) (t : Turn) (c : GatewayCall) (cid : String),
      ts[k]? = some t → capturedId t.stream.events = some cid →
      (turnsCalls h ts)[k + 1]? = some c → c.resume = some cid := by
  induction ts with
  | nil => intro h k t c cid hk; cases hk
  | cons t0 rest ih =>
    intro h k t c cid hk hcap hc
    cases k with
    | zero =>
      have ht : t = t0 := by
        rw [List.getElem?_cons_zero] at hk
        exact (Option.some.inj hk).symm
      subst ht
      have hcid : cid ≠ "" := capturedId_ne _ _ hcap
      have hh : (relayEvents h t.stream.events).1 = cid := by
        rw [relayEvents_fst, hcap]
        rfl
      rw [show (0 : Nat) + 1 = 1 from rfl] at hc
      cases rest with
      | nil => cases hc
      | cons r1 rs =>
        simp [turnsCalls, hh, hcid] at hc
        rw [← hc]
    | succ k2 =>
      refine ih (relayEvents h t0.stream.events).1 k2 t c cid ?_ hcap ?_
      · simpa using hk
      · simpa [turnsCalls] using hc

/-- Claim C4: over any serial sequence of valid prompts on one
authenticated connection, the gateway is called once per prompt; the
first prompt of the connection is invoked with no resume option, and
whenever the response to prompt k surfaced a continuation id (a truthy
`session_id` on an `init` event, the last one winning), the call for
prompt k+1 passes exactly that id as its resume option. -/
theorem claim_C4 (cfg : Config) (ts : List Turn)
    (hkey : cfg.hasAgentKey = true) (hv : ∀ t ∈ ts, validTurn t) :
    ((runTurns cfg ⟨true, ""⟩ ts).2.2.length = ts.length) ∧
    (∀ c, (runTurns cfg ⟨true, ""⟩ ts).2.2[0]? = some c → c.resume = none) ∧
    (∀ k t c cid, ts[k]? = some t → capturedId t.stream.events = some cid →
      (runTurns cfg ⟨true, ""⟩ ts).2.2[k + 1]? = some c →
      c.resume = some cid) := by
  have hcalls := runTurns_calls cfg hkey ts "" hv
  refine ⟨?_, ?_, ?_⟩
  · rw [hcalls, turnsCalls_length]
  · intro c h0
    rw [hcalls] at h0
    exact turnsCalls_head ts c h0
  · intro k t c cid hk hcap hc
    rw [hcalls] at hc
    exact turnsCalls_next ts "" k t c cid hk hcap hc

/-- Witness for claim C4: two serial turns, the first surfacing
continuation id "S1" — the first call has no resume option, the second
resumes from "S1". -/
theorem claim_C4_witness :
    ((runTurns ⟨true⟩ ⟨true, ""⟩
        [⟨"a", ⟨[.init "S1"], false⟩⟩, ⟨"b", ⟨[], false⟩⟩]).2.2.length = 2) ∧
    GatewayCall.resume ⟨"a", none⟩ = none ∧
    GatewayCall.resume ⟨"b", some "S1"⟩ = some "S1" :=
  ⟨(claim_C4 ⟨true⟩ [⟨"a", ⟨[.init "S1"], false⟩⟩, ⟨"b", ⟨[], false⟩⟩]
      rfl (by decide)).1,
   (claim_C4 ⟨true⟩ [⟨"a", ⟨[.init "S1"], false⟩⟩, ⟨"b", ⟨[], false⟩⟩]
      rfl (by decide)).2.1 ⟨"a", none⟩ (by decide),
   (claim_C4 ⟨true⟩ [⟨"a", ⟨[.init "S1"], false⟩⟩, ⟨"b", ⟨[], false⟩⟩]
      rfl (by decide)).2.2 0 ⟨"a", ⟨[.init "S1"], false⟩⟩ ⟨"b", some "S1"⟩ "S1"
      (by decide) (by decide) (by decide)⟩

end AgentRelay
